import Mathlib

/-!
Verification of the adaptive English-placement assessment engine
(backend/app/routers: listen.py, read.py, vocabulary.py).

The Python routers are shallowly embedded as executable Lean functions:
  * a small JSON value type plus a fuel-based parser modelling the fragment
    of `json.loads` the routers rely on (objects, arrays, strings with the
    common escapes, integers, booleans, null);
  * the JSON-extraction helpers `_extract_json_object` (listen.py/read.py)
    and `_extract_json_block` (vocabulary.py);
  * the CEFR level tables and the per-skill difficulty-adaptation rules
    (`_adjust_after_pair`, the reading passage-block step, `_adjust_level`);
  * the listening session state and its `submit_answers` turn, with the
    external content generator represented as an explicit argument
    (`Except` value: a successfully generated batch, or a generation
    failure), so that the state mutations performed by the turn are exact;
  * the vocabulary session state with its `answer` / `next_question`
    turns and the retry loop of `_generate_question_for`, the provider
    being modelled as a stream of raw response strings consumed one call
    at a time.

Machine integers are `Int`/`Nat` (Python integers are unbounded, so no
overflow modelling is needed).  Fallible code returns `Except`/`Option`.
-/

/-! ## JSON values and a model of `json.loads` -/

/-- JSON values as produced by Python's `json.loads` on the fragment the
routers consume.  Python has no separate bool-vs-int JSON type, but
`json.loads` returns `True`/`False` for JSON booleans; `bool` is kept as a
separate constructor and the places where Python treats `bool` as an `int`
(`isinstance(x, int)`) convert it explicitly. Floats never occur in the
inputs the embedding is evaluated on and are not modelled. -/
inductive Json where
  | null : Json
  | bool : Bool → Json
  | num : Int → Json
  | str : String → Json
  | arr : List Json → Json
  | obj : List (String × Json) → Json
deriving Repr

/-- The character `"` (kept as a named constant). -/
def quoteC : Char := Char.ofNat 34

/-- The backslash character. -/
def backslashC : Char := Char.ofNat 92

/-- The character `U+007B` (opening curly bracket). -/
def lbraceC : Char := Char.ofNat 123

/-- The character `U+007D` (closing curly bracket). -/
def rbraceC : Char := Char.ofNat 125

/-- JSON insignificant whitespace (space, tab, line feed, carriage return). -/
def isJsonWs (c : Char) : Bool :=
  c = ' ' ∨ c = '\t' ∨ c = '\n' ∨ c = '\r'

/-- Drop leading JSON whitespace. -/
def skipWs : List Char → List Char
  | [] => []
  | c :: cs => if isJsonWs c then skipWs cs else c :: cs

/-- Parse the body of a JSON string literal (the opening quote already
consumed), handling the escapes that occur in practice. -/
def parseStringBody : List Char → Option (String × List Char)
  | [] => none
  | c :: rest =>
    if c = quoteC then some ("", rest)
    else if c = backslashC then
      match rest with
      | [] => none
      | e :: rest2 =>
        let esc? : Option Char :=
          if e = quoteC then some quoteC
          else if e = backslashC then some backslashC
          else if e = '/' then some '/'
          else if e = 'n' then some '\n'
          else if e = 't' then some '\t'
          else if e = 'r' then some '\r'
          else none
        match esc? with
        | none => none
        | some ch => (parseStringBody rest2).map (fun p => (⟨ch :: p.1.toList⟩, p.2))
    else (parseStringBody rest).map (fun p => (⟨c :: p.1.toList⟩, p.2))

/-- Parse a nonempty run of decimal digits. -/
def parseDigits (cs : List Char) : Option (Nat × List Char) :=
  let ds := cs.takeWhile Char.isDigit
  if ds.isEmpty then none
  else some (ds.foldl (fun acc c => acc * 10 + (c.toNat - 48)) 0, cs.dropWhile Char.isDigit)

/-- Parse a JSON integer (optional minus sign, digits). -/
def parseNumber (cs : List Char) : Option (Json × List Char) :=
  match cs with
  | '-' :: rest => (parseDigits rest).map (fun p => (Json.num (-(p.1 : Int)), p.2))
  | _ => (parseDigits cs).map (fun p => (Json.num (p.1 : Int), p.2))

mutual

/-- Fuel-based recursive-descent parser for a JSON value. -/
def parseVal : Nat → List Char → Option (Json × List Char)
  | 0, _ => none
  | fuel + 1, cs =>
    match skipWs cs with
    | [] => none
    | c :: rest =>
      if c = lbraceC then
        match skipWs rest with
        | c2 :: r2 =>
          if c2 = rbraceC then some (Json.obj [], r2)
          else do
            let (kvs, r3) ← parseMembers fuel (c2 :: r2)
            pure (Json.obj kvs, r3)
        | [] => none
      else if c = '[' then
        match skipWs rest with
        | ']' :: r2 => some (Json.arr [], r2)
        | other => do
            let (vs, r3) ← parseItems fuel other
            pure (Json.arr vs, r3)
      else if c = quoteC then
        (parseStringBody rest).map (fun p => (Json.str p.1, p.2))
      else
        match c :: rest with
        | 't' :: 'r' :: 'u' :: 'e' :: r2 => some (Json.bool true, r2)
        | 'f' :: 'a' :: 'l' :: 's' :: 'e' :: r2 => some (Json.bool false, r2)
        | 'n' :: 'u' :: 'l' :: 'l' :: r2 => some (Json.null, r2)
        | other => parseNumber other

/-- Parse the comma-separated items of a nonempty JSON array, including the
closing bracket. -/
def parseItems : Nat → List Char → Option (List Json × List Char)
  | 0, _ => none
  | fuel + 1, cs => do
    let (v, r) ← parseVal fuel cs
    match skipWs r with
    | ',' :: r2 => do
        let (vs, r3) ← parseItems fuel r2
        pure (v :: vs, r3)
    | ']' :: r2 => pure ([v], r2)
    | _ => none

/-- Parse the members of a nonempty JSON object, including the closing
brace. -/
def parseMembers : Nat → List Char → Option (List (String × Json) × List Char)
  | 0, _ => none
  | fuel + 1, cs =>
    match skipWs cs with
    | c :: rest =>
      if c = quoteC then do
        let (k, r) ← parseStringBody rest
        match skipWs r with
        | ':' :: r2 => do
            let (v, r3) ← parseVal fuel r2
            match skipWs r3 with
            | ',' :: r4 => do
                let (kvs, r5) ← parseMembers fuel r4
                pure ((k, v) :: kvs, r5)
            | c4 :: r4 =>
                if c4 = rbraceC then pure ([(k, v)], r4) else none
            | [] => none
        | _ => none
      else none
    | [] => none

end

/-- Model of Python's `json.loads`: parse one JSON value and require that
only whitespace remains.  `none` models `json.JSONDecodeError`. -/
def jsonLoads (s : String) : Option Json :=
  match parseVal (s.length + 1) s.toList with
  | some (j, rest) => if skipWs rest = [] then some j else none
  | none => none

/-! ## String-search helpers used by the extraction functions -/

/-- Index of the first occurrence of character `c` (Python `str.find`,
`none` for `-1`). -/
def charIndexOf (cs : List Char) (c : Char) : Option Nat :=
  match cs with
  | [] => none
  | x :: rest =>
    if x = c then some 0
    else (charIndexOf rest c).map (· + 1)

/-- Index of the last occurrence of character `c` (Python `str.rfind`,
`none` for `-1`). -/
def charLastIndexOf (cs : List Char) (c : Char) : Option Nat :=
  match cs with
  | [] => none
  | x :: rest =>
    match charLastIndexOf rest c with
    | some i => some (i + 1)
    | none => if x = c then some 0 else none

/-- Split `hay` at the first occurrence of `needle`, returning the part
before it and the part after it. -/
def splitFirstSub (needle : List Char) (hay : List Char) : Option (List Char × List Char) :=
  if needle.isPrefixOf hay then some ([], hay.drop needle.length)
  else
    match hay with
    | [] => none
    | c :: rest => (splitFirstSub needle rest).map (fun p => (c :: p.1, p.2))

/-- The backtick character. -/
def backtickC : Char := Char.ofNat 96

/-- The three characters of a markdown fence. -/
def fenceChars : List Char := [backtickC, backtickC, backtickC]

/-- The opening of a ```` ```json ```` fence. -/
def fenceJsonChars : List Char := fenceChars ++ ['j', 's', 'o', 'n']

/-- Strip leading and trailing whitespace from a character list (the
effect of Python's `str.strip` / the `\s*` anchors in the fence regex). -/
def trimChars (cs : List Char) : List Char :=
  ((cs.dropWhile isJsonWs).reverse.dropWhile isJsonWs).reverse

/-- Candidate text captured by `re.search(r"```json\s*([\s\S]*?)\s*```", text)`
in listen.py/read.py: the text between the first ```` ```json ```` and the
next ```` ``` ````, with surrounding whitespace stripped (the effect of the
greedy `\s*` around the non-greedy group).  If the first ```` ```json ````
is never closed, no later occurrence can be either (any later
```` ```json ```` would itself close the first match), so the
first-occurrence search is faithful to the leftmost-match regex. -/
def fenceCandidate (text : String) : Option String :=
  match splitFirstSub fenceJsonChars text.toList with
  | none => none
  | some (_, rest) =>
    match splitFirstSub fenceChars rest with
    | none => none
    | some (content, _) => some (String.mk (trimChars content))

/-- Candidate substring from the first `U+007B` to the last `U+007D`
(inclusive) used by `_extract_json_object` in listen.py/read.py
(`text.find`, `text.rfind`, requiring `last > first`). -/
def braceCandidate (text : String) : Option String :=
  let cs := text.toList
  match charIndexOf cs lbraceC, charLastIndexOf cs rbraceC with
  | some first, some last =>
    if first < last then some (String.mk ((cs.drop first).take (last + 1 - first)))
    else none
  | _, _ => none

/-- Candidate substring matched by `re.search(r"\{[\s\S]*\}", text)` in
vocabulary.py: the greedy leftmost match runs from the first `U+007B` to
the last `U+007D` occurring after it. -/
def vocabBraceCandidate (text : String) : Option String :=
  let cs := text.toList
  match charIndexOf cs lbraceC with
  | none => none
  | some first =>
    let tail := cs.drop first
    match charLastIndexOf tail rbraceC with
    | none => none
    | some lastRel => if 0 < lastRel then some (String.mk (tail.take (lastRel + 1))) else none

/-! ## The two JSON-extraction functions -/

/-- Function `_extract_json_object` from listen.py (identical code in read.py):
try `json.loads` on the whole text; then on the contents of a
```` ```json ```` fence; then on the first-to-last brace span; raise
HTTP 500 if all fail.  `Except.error` carries the HTTP detail string. -/
def extract_json_object (text : String) : Except String Json :=
  match jsonLoads text with
  | some j => .ok j
  | none =>
    match fenceCandidate text with
    | some cand =>
      match jsonLoads cand with
      | some j => .ok j
      | none =>
        match braceCandidate text with
        | some cand2 =>
          match jsonLoads cand2 with
          | some j => .ok j
          | none => .error "LLM did not return valid JSON."
        | none => .error "LLM did not return valid JSON."
    | none =>
      match braceCandidate text with
      | some cand2 =>
        match jsonLoads cand2 with
        | some j => .ok j
        | none => .error "LLM did not return valid JSON."
      | none => .error "LLM did not return valid JSON."

/-- Function `_extract_json_block` from vocabulary.py: try `json.loads` on the whole
text; then on the greedy first-brace-to-last-brace span; raise `ValueError`
if both fail.  There is no fenced-code-block strategy in this function. -/
def extract_json_block (text : String) : Except String Json :=
  match jsonLoads text with
  | some j => .ok j
  | none =>
    match vocabBraceCandidate text with
    | some cand =>
      match jsonLoads cand with
      | some j => .ok j
      | none => .error "Failed to parse JSON from Gemini output"
    | none => .error "Failed to parse JSON from Gemini output"

/-! ## Python value helpers shared by the routers -/

/-- Python exceptions that escape the routers' own `try` blocks. -/
inductive PyError where
  | attributeError
  | typeError
deriving Repr, DecidableEq

/-- Python truthiness of a JSON value (used by `x or default`). -/
def jsonTruthy (j : Json) : Bool :=
  match j with
  | .null => false
  | .bool b => b
  | .num n => n != 0
  | .str s => !s.isEmpty
  | .arr l => !l.isEmpty
  | .obj kvs => !kvs.isEmpty

/-- Python `x or dflt`. -/
def pyOr (j dflt : Json) : Json := if jsonTruthy j then j else dflt

/-- Python `dict.get(key)` (`None` when absent).  Python dict construction keeps
the last value for a duplicated key, hence the reversed search.  Calling
`.get` on a non-dict raises `AttributeError`. -/
def pyDictGet (j : Json) (key : String) : Except PyError (Option Json) :=
  match j with
  | .obj kvs => .ok (((kvs.reverse).find? (fun p => p.1 = key)).map Prod.snd)
  | _ => .error .attributeError

/-- Python `dict.get(key, dflt)`. -/
def pyDictGetD (j : Json) (key : String) (dflt : Json) : Except PyError Json :=
  (pyDictGet j key).map (fun o => o.getD dflt)

/-- Python `str(x)` for the scalar JSON values; container values are
abbreviated (no theorem in this file evaluates `str` on a container). -/
def pyStr (j : Json) : String :=
  match j with
  | .str s => s
  | .num n => toString n
  | .bool b => if b then "True" else "False"
  | .null => "None"
  | .arr _ => "<list>"
  | .obj _ => "<dict>"

/-- Python `str.strip()`. -/
def pyStrip (s : String) : String := String.mk (trimChars s.toList)

/-- Numeric value of a digit run. -/
def digitsVal (ds : List Char) : Int :=
  ds.foldl (fun acc c => acc * 10 + ((c.toNat : Int) - 48)) 0

/-- Python `int(x)` on a JSON value, `none` when it raises
(`TypeError`/`ValueError`).  `bool` is an `int` subtype in Python. -/
def pyToInt (j : Json) : Option Int :=
  match j with
  | .num n => some n
  | .bool b => some (if b then 1 else 0)
  | .str s =>
    match trimChars s.toList with
    | '-' :: ds => if !ds.isEmpty ∧ ds.all Char.isDigit then some (-(digitsVal ds)) else none
    | '+' :: ds => if !ds.isEmpty ∧ ds.all Char.isDigit then some (digitsVal ds) else none
    | ds => if !ds.isEmpty ∧ ds.all Char.isDigit then some (digitsVal ds) else none
  | _ => none

/-- Python `isinstance(x, int)` on a JSON value (`bool` is an `int`). -/
def pyIsInt (j : Json) : Bool :=
  match j with
  | .num _ => true
  | .bool _ => true
  | _ => false

/-- The `int` value of a JSON value satisfying `pyIsInt`. -/
def pyIntVal (j : Json) : Int :=
  match j with
  | .num n => n
  | .bool b => if b then 1 else 0
  | _ => 0

/-- Iterate a JSON value as Python iterates it in a list comprehension:
lists yield their elements, strings their characters; other scalars raise
`TypeError`.  (Dict iteration is not needed by the embedded code paths.) -/
def pyIter (j : Json) : Except PyError (List Json) :=
  match j with
  | .arr l => .ok l
  | .str s => .ok (s.toList.map (fun c => Json.str (String.mk [c])))
  | _ => .error .typeError

/-! ## CEFR level tables (listen.py / read.py / vocabulary.py) -/

/-- Table `CEFR_ORDER` from listen.py and read.py. -/
def CEFR_ORDER : List String := ["A1", "A2", "B1", "B2", "C1", "C2"]

/-- Table `LEVELS` from vocabulary.py (same six levels). -/
def LEVELS : List String := ["A1", "A2", "B1", "B2", "C1", "C2"]

/-- The dict `CAMBRIDGE_BY_CEFR` from listen.py/read.py as a function on
its six keys. -/
def CAMBRIDGE_BY_CEFR (level : String) : String :=
  if level = "A1" ∨ level = "A2" then "KET"
  else if level = "B1" then "PET"
  else "FCE"

/-- Function `_map_band_to_exam` from listen.py (inputs are already upper-case in
every call site, so `band.upper()` is the identity here). -/
def map_band_to_exam (band : String) : String :=
  if band = "A1" ∨ band = "A2" then "KET"
  else if band = "B1" then "PET"
  else "FCE"

/-- Function `level_to_exam` from vocabulary.py. -/
def level_to_exam (level : String) : String :=
  if level = "A1" ∨ level = "A2" then "KET"
  else if level = "B1" then "PET"
  else "FCE"

/-! ## Listening module data (listen.py) -/

/-- A normalized listening clip as built by `_llm_generate_clips`
(lines 306-323 of listen.py); the `targets` sub-dict is flattened into the
two lists it carries. -/
structure Clip where
  id : String
  title : String
  transcript : String
  question : String
  choices : List String
  correct_index : Int
  rationale : String
  level_cefr : String
  cambridge_level : String
  exam_task_type : String
  target_vocab : List String
  target_structures : List String
deriving Repr, DecidableEq

/-- One entry of `ListenSession.answer_log` (lines 486-495 of listen.py). -/
structure LogEntry where
  clip_id : String
  correct : Bool
  correct_choice_index : Int
  rationale : String
  level_cefr : String
  cambridge_level : String
deriving Repr, DecidableEq

/-- One entry of the `evaluated` list returned by `submit_answers`
(lines 504-512 of listen.py). -/
structure EvalEntry where
  clip_id : String
  chosen_index : Int
  correct_choice_index : Int
  correct : Bool
  rationale : String
deriving Repr, DecidableEq

/-- The `ListenSession` class (listen.py lines 86-121).  The id-keyed dict
`clip_lookup` is modelled as an insertion-ordered list of clips (Python
dicts preserve insertion order). -/
structure ListenSession where
  session_id : String
  username : String
  start_cefr : String
  current_cefr : String
  cambridge_level : String
  clips : List Clip
  total : Nat
  asked : Nat
  history : List Bool
  answer_log : List LogEntry
  clip_lookup : List Clip
  ended : Bool
deriving Repr, DecidableEq

/-- Assignment `d[c.id] = c` on an insertion-ordered id-keyed dict of clips: replace
in place when the id exists, append otherwise. -/
def dictInsertClip (l : List Clip) (c : Clip) : List Clip :=
  if l.any (fun x => x.id = c.id) then l.map (fun x => if x.id = c.id then c else x)
  else l ++ [c]

/-- Constructor `ListenSession.__init__` (listen.py lines 108-121). -/
def ListenSession.init (session_id username start_cefr : String) (clips : List Clip)
    (total : Nat) : ListenSession :=
  { session_id := session_id
    username := username
    start_cefr := start_cefr
    current_cefr := start_cefr
    cambridge_level := CAMBRIDGE_BY_CEFR start_cefr
    clips := clips
    total := total
    asked := 0
    history := []
    answer_log := []
    clip_lookup := clips.foldl dictInsertClip []
    ended := false }

/-- Function `_validate_cefr` (listen.py lines 133-146): ignores its argument and
returns `"A2"` unconditionally. -/
def validate_cefr (_ : Option String) : String := "A2"

/-- The session state built by `start_session` (listen.py lines 352-363):
level forced by `_validate_cefr`, an initial batch of generated clips, and
a total budget of 10 items. -/
def start_session_state (session_id username : String) (start_level : Option String)
    (clips : List Clip) : ListenSession :=
  ListenSession.init session_id username (validate_cefr start_level) clips 10

/-- Python `history[-2:]`: the last two elements (or fewer). -/
def lastTwo (l : List Bool) : List Bool := l.drop (l.length - 2)

/-- Function `_adjust_after_pair` (listen.py lines 398-441), as a function from the
pre-pair level and the pair of outcomes to the post-pair level.  The
`cambridge_level` field is reassigned by the caller exactly when the level
changed, mirroring the in-place assignments. -/
def adjust_after_pair (current_cefr : String) (pair : List Bool) : String :=
  match pair with
  | [p0, p1] =>
    let both_correct := p0 && p1
    let both_incorrect := (!p0) && (!p1)
    if current_cefr = "C2" then
      if !both_correct then
        let idx := CEFR_ORDER.indexOf current_cefr
        if 0 < idx then CEFR_ORDER.getD (idx - 1) current_cefr else current_cefr
      else current_cefr
    else if both_correct then
      let idx := CEFR_ORDER.indexOf current_cefr
      if idx < CEFR_ORDER.length - 1 then CEFR_ORDER.getD (idx + 1) current_cefr
      else current_cefr
    else if both_incorrect then
      let idx := CEFR_ORDER.indexOf current_cefr
      if 0 < idx then CEFR_ORDER.getD (idx - 1) current_cefr else current_cefr
    else current_cefr
  | _ => current_cefr

/-- Errors surfaced by `submit_answers` (HTTPException status/detail pairs,
plus the propagated generation failure). -/
inductive SubmitError where
  | sessionNotFound
  | sessionEnded
  | unknownClip (id : String)
  | badChoiceIndex
  | generationFailed
deriving Repr, DecidableEq

/-- One submitted answer (the `Answer` request model of listen.py). -/
structure AnswerIn where
  clip_id : String
  choice_index : Int
deriving Repr, DecidableEq

/-- The body of the per-answer loop of `submit_answers` (listen.py lines
476-512): look the clip up in the batch dict, range-check the choice,
append to `answer_log` and `history`, bump `asked`, and adapt the level
after every second answered item using the latest two outcomes. -/
def listenProcessOne (id_to_clip : List Clip) (st : ListenSession) (a : AnswerIn) :
    Except SubmitError (ListenSession × EvalEntry) :=
  match id_to_clip.find? (fun c => c.id = a.clip_id) with
  | none => .error (.unknownClip a.clip_id)
  | some clip =>
    if a.choice_index < 0 ∨ 3 < a.choice_index then .error .badChoiceIndex
    else
      let is_correct := a.choice_index == clip.correct_index
      let entry : LogEntry :=
        { clip_id := clip.id
          correct := is_correct
          correct_choice_index := clip.correct_index
          rationale := clip.rationale
          level_cefr := clip.level_cefr
          cambridge_level := clip.cambridge_level }
      let history' := st.history ++ [is_correct]
      let asked' := st.asked + 1
      let level' :=
        if asked' % 2 = 0 then adjust_after_pair st.current_cefr (lastTwo history')
        else st.current_cefr
      let camb' :=
        if level' = st.current_cefr then st.cambridge_level
        else CAMBRIDGE_BY_CEFR level'
      let ev : EvalEntry :=
        { clip_id := clip.id
          chosen_index := a.choice_index
          correct_choice_index := clip.correct_index
          correct := is_correct
          rationale := clip.rationale }
      .ok ({ st with
              answer_log := st.answer_log ++ [entry]
              history := history'
              asked := asked'
              current_cefr := level'
              cambridge_level := camb' }, ev)

/-- The whole answer loop, retaining the partially mutated session when an
answer in the middle of the list raises (Python mutates the shared session
in place before raising). -/
def listenLoop (id_to_clip : List Clip) :
    ListenSession → List AnswerIn → List EvalEntry →
    ListenSession × List EvalEntry × Option SubmitError
  | st, [], acc => (st, acc, none)
  | st, a :: rest, acc =>
    match listenProcessOne id_to_clip st a with
    | .error e => (st, acc, some e)
    | .ok (st', ev) => listenLoop id_to_clip st' rest (acc ++ [ev])

/-- Generation failures of `_llm_generate_clips` (all HTTP 500s) and the
Python exceptions that can escape it. -/
inductive GenError where
  | invalidJson
  | wrongCount
  | invalidClip
  | pyFatal (e : PyError)
deriving Repr, DecidableEq

/-- Step `if v not in agg: agg.append(v)`. -/
def dedupAppend (acc : List String) (v : String) : List String :=
  if v ∈ acc then acc else acc ++ [v]

/-- The target-aggregation loop of the final summary (listen.py lines
562-572): one pass over `clip_lookup.values()` in insertion order,
appending each target first seen. -/
def aggTargets (clips : List Clip) : List String × List String :=
  clips.foldl
    (fun acc c =>
      (c.target_vocab.foldl dedupAppend acc.1,
       c.target_structures.foldl dedupAppend acc.2))
    ([], [])

/-- Response of `submit_answers`: either the next batch (session continues)
or the final summary (session finished). -/
inductive SubmitResponse where
  | continued (target_cefr cambridge_level : String) (clips : List Clip)
      (asked remaining : Nat) (evaluated : List EvalEntry)
  | finished (correct incorrect total : Nat) (final_level exam : String)
      (target_vocab target_structures : List String)
      (per_item : List LogEntry) (evaluated : List EvalEntry)
deriving Repr, DecidableEq

/-- The final-summary computation of `submit_answers` (listen.py lines
557-589): totals over the full history, target aggregation over every clip
ever shown (`clip_lookup`), fixed caps of 20 vocabulary entries and 12
structure entries, exam mapping of the final level, and the full per-item
log.  It reads only `history`, `clip_lookup`, `total`, `current_cefr` and
`answer_log` — never the `ended` flag it is computed alongside. -/
def listenFinalSummary (st : ListenSession) (evaluated : List EvalEntry) : SubmitResponse :=
  let correct := (st.history.filter (fun b => b)).length
  let incorrect := st.history.length - correct
  let agg := aggTargets st.clip_lookup
  .finished correct incorrect st.total st.current_cefr
    (map_band_to_exam st.current_cefr)
    (agg.1.take 20) (agg.2.take 12) st.answer_log evaluated

/-- Endpoint `submit_answers` (listen.py lines 444-589) for a known session.  The
content generator is an explicit argument: `.ok batch` is the batch a
successful `_llm_generate_clips` call returns, `.error` a generation
failure raised from inside the turn.  The returned session is the state
the in-memory registry holds afterwards — on an error it keeps every
mutation made before the raise. -/
def submit_answers (st : ListenSession) (answers : List AnswerIn)
    (gen : Except GenError (List Clip)) :
    ListenSession × Except SubmitError SubmitResponse :=
  if st.ended then (st, .error .sessionEnded)
  else
    match listenLoop st.clips st answers [] with
    | (st', _, some e) => (st', .error e)
    | (st', evaluated, none) =>
      if st'.asked < st'.total then
        let remaining := st'.total - st'.asked
        match gen with
        | .error _ => (st', .error .generationFailed)
        | .ok new_clips =>
          let st'' := { st' with
                        clips := new_clips
                        clip_lookup := new_clips.foldl dictInsertClip st'.clip_lookup }
          (st'', .ok (.continued st''.current_cefr st''.cambridge_level new_clips
                        st''.asked remaining evaluated))
      else
        ({ st' with ended := true }, .ok (listenFinalSummary st' evaluated))

/-! ## Normalization and validation of generated listening clips -/

/-- Validation and normalization of one candidate clip (listen.py lines
279-323).  `idx` is the 1-based position used for the default title and
the generated id (the `uuid4` suffix is modelled by the position, which the
session logic never inspects). -/
def normClipAt (cefr cambridge : String) (idx : Nat) (c : Json) : Except GenError Clip := do
  let title ← (pyDictGetD c "title" (.str ("Clip " ++ toString idx))).mapError .pyFatal
  let transcript ← (pyDictGetD c "transcript" (.str "")).mapError .pyFatal
  let question ← (pyDictGetD c "question" (.str "")).mapError .pyFatal
  let options ← (pyDictGetD c "options" (.arr [])).mapError .pyFatal
  let correct_index ← (pyDictGetD c "correct_index" .null).mapError .pyFatal
  let rationale ← (pyDictGetD c "rationale" (.str "")).mapError .pyFatal
  let exam_task_type ← (pyDictGetD c "exam_task_type" (.str "gist")).mapError .pyFatal
  let targets0 ← (pyDictGetD c "targets" (.obj [])).mapError .pyFatal
  let targets := pyOr targets0 (.obj [])
  let transcriptS := pyStrip (pyStr transcript)
  let questionS := pyStrip (pyStr question)
  match options with
  | .arr opts =>
    if transcriptS = "" ∨ questionS = "" ∨ opts.length ≠ 4 ∨ !pyIsInt correct_index ∨
        pyIntVal correct_index < 0 ∨ 3 < pyIntVal correct_index then
      .error .invalidClip
    else do
      let tv0 ← (pyDictGetD targets "target_vocab" .null).mapError .pyFatal
      let ts0 ← (pyDictGetD targets "target_structures" .null).mapError .pyFatal
      let tv ← (pyIter (pyOr tv0 (.arr []))).mapError .pyFatal
      let ts ← (pyIter (pyOr ts0 (.arr []))).mapError .pyFatal
      .ok { id := "c" ++ toString idx
            title := pyStrip (pyStr title)
            transcript := transcriptS
            question := questionS
            choices := opts.map (fun o => pyStrip (pyStr o))
            correct_index := pyIntVal correct_index
            rationale := match rationale with
                         | .str s => pyStrip s
                         | _ => ""
            level_cefr := cefr
            cambridge_level := cambridge
            exam_task_type := pyStrip (pyStr exam_task_type)
            target_vocab := (tv.map (fun x => pyStrip (pyStr x))).take 10
            target_structures := (ts.map (fun x => pyStrip (pyStr x))).take 6 }
  | _ => .error .invalidClip

/-- Fold `normClipAt` over the candidate list with 1-based positions. -/
def normClips (cefr cambridge : String) : Nat → List Json → Except GenError (List Clip)
  | _, [] => .ok []
  | idx, c :: rest => do
    let clip ← normClipAt cefr cambridge idx c
    let more ← normClips cefr cambridge (idx + 1) rest
    .ok (clip :: more)

/-- The parse-and-validate part of `_llm_generate_clips` (listen.py lines
271-324) applied to one raw provider response. -/
def parseValidateClips (cefr cambridge : String) (count : Nat) (raw : String) :
    Except GenError (List Clip) := do
  let data ←
    match extract_json_object raw with
    | .ok j => Except.ok j
    | .error _ => Except.error GenError.invalidJson
  let clipsJ ← (pyDictGet data "clips").mapError .pyFatal
  match clipsJ with
  | some (.arr cs) =>
    if cs.length ≠ count then .error .wrongCount
    else normClips cefr cambridge 1 cs
  | _ => .error .wrongCount

/-- Function `_llm_generate_clips` (listen.py lines 251-324) against a provider
modelled as a stream of raw responses: the function performs exactly one
`client.generate` call — response index 0 — and surfaces any parse or
validation failure immediately, with no retry. -/
def llm_generate_clips (cefr cambridge : String) (count : Nat)
    (provider : Nat → String) : Except GenError (List Clip) :=
  parseValidateClips cefr cambridge count (provider 0)

/-! ## Reading module (read.py) -/

/-- The passage-block difficulty step of `submit_answer` (read.py lines
331-351): from the pre-block level and the number of correct answers in
the finished 5-question block to the post-block level.  The index
arithmetic is over `Int` (Python) and is clamped into the table at the
end, as in line 349. -/
def read_block_adjust (current_cefr : String) (correct_in_passage : Nat) : String :=
  let idx : Int := (CEFR_ORDER.indexOf current_cefr : Int)
  let idx :=
    if 5 ≤ correct_in_passage then idx + 2
    else if correct_in_passage = 4 then
      (if current_cefr = "C1" then idx else idx + 1)
    else if correct_in_passage = 3 then idx
    else if correct_in_passage = 2 then idx - 1
    else idx - 2
  let idx := max 0 (min idx ((CEFR_ORDER.length : Int) - 1))
  CEFR_ORDER.getD idx.toNat ""

/-- Function `_adjust_final_by_last_five` (read.py lines 225-235). -/
def adjust_final_by_last_five (current_cefr : String) (outcomes : List Bool) : String :=
  if outcomes.isEmpty then current_cefr
  else
    let correct := ((outcomes.drop (outcomes.length - 5)).filter (fun o => o)).length
    let idx := CEFR_ORDER.indexOf current_cefr
    let idx :=
      if 4 ≤ correct then min (idx + 1) (CEFR_ORDER.length - 1)
      else if correct ≤ 1 then idx - 1
      else idx
    CEFR_ORDER.getD idx ""

/-- Failure modes of `_llm_generate_passage_questions` (read.py; all
HTTP 500s, plus the Python exceptions that can escape it). -/
inductive ReadGenError where
  | invalidJson
  | notValidArray
  | invalidQuestionFormat
  | invalidCorrectIndex
  | pyFatal (e : PyError)
deriving Repr, DecidableEq

/-- One normalized reading question as built by
`_llm_generate_passage_questions` (read.py lines 190-199). -/
structure ReadQuestion where
  id : String
  number : Nat
  question : String
  choices : List String
  correct_index : Int
  rationale : String
  level_cefr : String
  cambridge_level : String
deriving Repr, DecidableEq

/-- Validation and normalization of one candidate reading question
(read.py lines 178-200).  `number` is `state.next_number() + i`, used for
the question number and the generated id (the `uuid4` suffix is modelled
by the number, which the session logic never inspects). -/
def normReadQuestionAt (cefr camb : String) (number : Nat) (qd : Json) :
    Except ReadGenError ReadQuestion := do
  let questionJ ← (pyDictGet qd "question").mapError ReadGenError.pyFatal
  let optionsJ ← (pyDictGet qd "options").mapError ReadGenError.pyFatal
  let correctJ ← (pyDictGet qd "correct_index").mapError ReadGenError.pyFatal
  let rationaleJ ← (pyDictGet qd "rationale").mapError ReadGenError.pyFatal
  match questionJ.getD .null, optionsJ.getD .null with
  | .str qtext, .arr opts =>
    let correct := correctJ.getD .null
    if opts.length ≠ 4 ∨ !pyIsInt correct then .error .invalidQuestionFormat
    else if pyIntVal correct < 0 ∨ 3 < pyIntVal correct then .error .invalidCorrectIndex
    else
      .ok { id := "q" ++ toString number
            number := number
            question := pyStrip qtext
            choices := opts.map (fun o => pyStrip (pyStr o))
            correct_index := pyIntVal correct
            rationale := match rationaleJ.getD .null with
                         | .str s => pyStrip s
                         | _ => ""
            level_cefr := cefr
            cambridge_level := camb }
  | _, _ => .error .invalidQuestionFormat

/-- Fold `normReadQuestionAt` over the candidate array with consecutive
question numbers. -/
def normReadQuestions (cefr camb : String) :
    Nat → List Json → Except ReadGenError (List ReadQuestion)
  | _, [] => .ok []
  | number, qd :: rest => do
    let q ← normReadQuestionAt cefr camb number qd
    let more ← normReadQuestions cefr camb (number + 1) rest
    .ok (q :: more)

/-- The parse-and-validate part of `_llm_generate_passage_questions`
(read.py lines 173-201) applied to one raw provider response: extract the
JSON value (read.py carries its own copy of `_extract_json_object`,
identical to listen.py's), require a top-level array of exactly
`questions_per_passage` objects, and normalize each. -/
def parseValidatePassageQuestions (cefr camb : String)
    (questions_per_passage next_number : Nat) (raw : String) :
    Except ReadGenError (List ReadQuestion) := do
  let data ←
    match extract_json_object raw with
    | .ok j => Except.ok j
    | .error _ => Except.error ReadGenError.invalidJson
  match data with
  | .arr qs =>
    if qs.length ≠ questions_per_passage then .error .notValidArray
    else normReadQuestions cefr camb next_number qs
  | _ => .error .notValidArray

/-- Function `_llm_generate_passage_questions` (read.py lines 162-201)
against a provider modelled as a stream of raw responses: the function
performs exactly one `client.generate` call — response index 0 — and
surfaces any parse or validation failure immediately, with no retry. -/
def llm_generate_passage_questions (cefr camb : String)
    (questions_per_passage next_number : Nat) (provider : Nat → String) :
    Except ReadGenError (List ReadQuestion) :=
  parseValidatePassageQuestions cefr camb questions_per_passage next_number (provider 0)

/-! ## Vocabulary module (vocabulary.py) -/

/-- The `Question` pydantic model of vocabulary.py. -/
structure VQuestion where
  id : String
  cefr : String
  exam_target : String
  passage : String
  question : String
  options : List String
  answer_index : Int
  rationale : Option String
deriving Repr, DecidableEq

/-- One entry of `_SessionState.history` (vocabulary.py lines 344-352). -/
structure VHistEntry where
  question_id : String
  choice_index : Int
  answer_index : Int
  correct : Bool
  level : String
deriving Repr, DecidableEq

/-- The `_SessionState` class of vocabulary.py (lines 71-82).  The
id-keyed `questions` dict is an insertion-ordered association list; the
speculative `_question_cache` only feeds question objects into `questions`
and never touches the authoritative counters, so it is not part of the
state the claims quantify over. -/
structure VocabSession where
  session_id : String
  level_index : Nat
  correct_streak : Nat
  incorrect_streak : Nat
  asked : Nat
  total : Nat
  questions : List (String × VQuestion)
  history : List VHistEntry
deriving Repr, DecidableEq

/-- Assignment `questions[q.id] = q` on the insertion-ordered dict. -/
def dictInsertVQ (l : List (String × VQuestion)) (q : VQuestion) :
    List (String × VQuestion) :=
  if l.any (fun p => p.1 = q.id) then l.map (fun p => if p.1 = q.id then (q.id, q) else p)
  else l ++ [(q.id, q)]

/-- Function `_adjust_level` (vocabulary.py lines 259-277). -/
def adjust_level (st : VocabSession) (was_correct : Bool) : VocabSession :=
  if was_correct then
    let st := { st with correct_streak := st.correct_streak + 1, incorrect_streak := 0 }
    if 2 ≤ st.correct_streak then
      let st :=
        if st.level_index < LEVELS.length - 1 then { st with level_index := st.level_index + 1 }
        else st
      { st with correct_streak := 0, incorrect_streak := 0 }
    else st
  else
    let st := { st with incorrect_streak := st.incorrect_streak + 1, correct_streak := 0 }
    if 2 ≤ st.incorrect_streak then
      let st :=
        if 0 < st.level_index then { st with level_index := st.level_index - 1 }
        else st
      { st with correct_streak := 0, incorrect_streak := 0 }
    else st

/-- Client-input errors of the vocabulary endpoints. -/
inductive VocabError where
  | sessionNotFound
  | unknownQuestion
deriving Repr, DecidableEq

/-- The `AnswerResponse` model of vocabulary.py (the `explanation` field
merely copies the question's rationale and is omitted). -/
structure VocabAnswerResp where
  correct : Bool
  level : String
  progress_current : Nat
  progress_total : Nat
  finished : Bool
deriving Repr, DecidableEq

/-- The `answer` endpoint (vocabulary.py lines 334-378) for the session the
registry currently holds under the request's session id (`none` models a
missing/expired/deleted entry).  Returns the registry entry afterwards —
`none` both on `404` and after the finished-session cleanup — and the
response.  Any question id ever installed in `questions` is accepted,
whether or not it was answered before. -/
def vocab_answer (sess : Option VocabSession) (question_id : String) (choice_index : Int) :
    Except VocabError (Option VocabSession × VocabAnswerResp) :=
  match sess with
  | none => .error .sessionNotFound
  | some st =>
    match st.questions.find? (fun p => p.1 = question_id) with
    | none => .error .unknownQuestion
    | some (_, q) =>
      let was_correct := choice_index == q.answer_index
      let st := { st with
                  history := st.history ++
                    [{ question_id := q.id
                       choice_index := choice_index
                       answer_index := q.answer_index
                       correct := was_correct
                       level := q.cefr }] }
      let st := adjust_level st was_correct
      let finished := st.total ≤ st.asked
      let st := if finished then st else { st with asked := st.asked + 1 }
      let resp : VocabAnswerResp :=
        { correct := was_correct
          level := LEVELS.getD st.level_index ""
          progress_current := st.asked
          progress_total := st.total
          finished := finished }
      .ok (if finished then none else some st, resp)

/-- The `next_question` endpoint (vocabulary.py lines 389-411): install one
more generated question under its id without touching `asked`. -/
def vocab_next_question (sess : Option VocabSession) (q : VQuestion) :
    Except VocabError VocabSession :=
  match sess with
  | none => .error .sessionNotFound
  | some st => .ok { st with questions := dictInsertVQ st.questions q }

/-- The session state built by the `start` endpoint (vocabulary.py lines
302-331) once the first question `q` exists: level index from the
validated start level, total 15, the first question installed, and
`asked = 1`. -/
def vocab_start_state (session_id level : String) (q : VQuestion) : VocabSession :=
  { session_id := session_id
    level_index := LEVELS.indexOf level
    correct_streak := 0
    incorrect_streak := 0
    asked := 1
    total := 15
    questions := [(q.id, q)]
    history := [] }

/-! ## Vocabulary uniqueness validation and generation retry loop -/

/-- Insert into a sorted list of `Int`. -/
def insertSorted (x : Int) : List Int → List Int
  | [] => [x]
  | y :: ys => if x ≤ y then x :: y :: ys else y :: insertSorted x ys

/-- Ascending insertion sort. -/
def sortInts (l : List Int) : List Int := l.foldr insertSorted []

/-- Keep the first occurrence of each value. -/
def distinctInts (l : List Int) : List Int :=
  l.foldl (fun acc v => if v ∈ acc then acc else acc ++ [v]) []

/-- The index-normalization loop of `_validate_unique_answer`
(vocabulary.py lines 239-251): keep `int` entries (Python `bool` included)
and digit-only strings, drop the rest, keep those in `[0, len(options))`,
then `sorted(set(...))`. -/
def normalizeIndices (indices : List Json) (numOptions : Nat) : List Int :=
  let vals := indices.filterMap (fun idx =>
    match idx with
    | .num n => some n
    | .bool b => some (if b then (1 : Int) else 0)
    | .str s =>
      let t := trimChars s.toList
      if !t.isEmpty ∧ t.all Char.isDigit then some (digitsVal t) else none
    | _ => none)
  let inRange := vals.filter (fun v => 0 ≤ v ∧ v < (numOptions : Int))
  sortInts (distinctInts inRange)

/-- Function `_validate_unique_answer` (vocabulary.py lines 195-256) applied to the
raw text the validation call returned.  A parse failure is caught and
yields `false` (the item is discarded); the `.get` on a parsed non-dict
value raises `AttributeError` outside the `try` and escapes (`.error`). -/
def validate_unique_answer (q : VQuestion) (raw : String) : Except PyError Bool :=
  match extract_json_block raw with
  | .error _ => .ok false
  | .ok data =>
    match pyDictGet data "correct_indices" with
    | .error e => .error e
    | .ok indicesOpt =>
      match indicesOpt with
      | some (.arr indices) =>
        match normalizeIndices indices q.options.length with
        | [v] => .ok (v == q.answer_index)
        | _ => .ok false
      | _ => .ok false

/-- Failure modes of `_generate_question_for`. -/
inductive VGenError where
  | exhausted
  | pyFatal (e : PyError)
deriving Repr, DecidableEq

/-- The parse-and-validate part of one attempt of `_generate_question_for`
(vocabulary.py lines 137-171): extract the JSON block and build a
`Question`, failing (`none`) on any of the checked format errors; a `.get`
on a non-dict escapes as a Python error. -/
def vocabParseQuestion (level exam : String) (qid : String) (raw : String) :
    Except PyError (Option VQuestion) :=
  match extract_json_block raw with
  | .error _ => .ok none
  | .ok data => do
    let passageJ ← pyDictGetD data "passage" (.str "")
    let questionJ ← pyDictGetD data "question" (.str "")
    let optionsJ ← pyDictGet data "options"
    let answerJ ← pyDictGet data "answer_index"
    let rationaleJ ← pyDictGet data "rationale"
    let passage := pyStrip (pyStr passageJ)
    let question := pyStrip (pyStr questionJ)
    let options := pyOr (optionsJ.getD .null) (.arr [])
    match options with
    | .arr opts =>
      if passage = "" ∨ question = "" ∨ opts.length ≠ 4 then .ok none
      else
        match pyToInt (answerJ.getD .null) with
        | none => .ok none
        | some ai =>
          if ai < 0 ∨ 4 ≤ ai then .ok none
          else do
            let rationale ←
              match pyOr (rationaleJ.getD .null) (.str "") with
              | .str s => pure (let r := pyStrip s; if r = "" then none else some r)
              | _ => Except.error PyError.attributeError
            .ok (some { id := qid
                        cefr := level
                        exam_target := exam
                        passage := passage
                        question := question
                        options := opts.map pyStr
                        answer_index := ai
                        rationale := rationale })
    | _ => .ok none

/-- The retry loop of `_generate_question_for` (vocabulary.py lines
131-192) against a provider stream: `tries` attempts remain (4 initially),
`k` is the index of the next provider response.  Each attempt consumes one
response for generation and — when the item is structurally valid — one
more for the uniqueness validation; any failed attempt falls through to a
fresh attempt; when the loop ends the endpoint raises HTTP 502 (modelled
by `.error .exhausted`). -/
def generate_question_aux (level exam : String) (provider : Nat → String) :
    Nat → Nat → Except VGenError VQuestion
  | 0, _ => .error .exhausted
  | tries + 1, k =>
    match vocabParseQuestion level exam ("q" ++ toString k) (provider k) with
    | .error e => .error (.pyFatal e)
    | .ok none => generate_question_aux level exam provider tries (k + 1)
    | .ok (some q) =>
      match validate_unique_answer q (provider (k + 1)) with
      | .error e => .error (.pyFatal e)
      | .ok false => generate_question_aux level exam provider tries (k + 2)
      | .ok true => .ok q

/-- Function `_generate_question_for` (vocabulary.py lines 104-192): `for _ in
range(4)` — at most four generation attempts. -/
def generate_question_for (level_index : Nat) (provider : Nat → String) :
    Except VGenError VQuestion :=
  let level := LEVELS.getD level_index ""
  generate_question_aux level (level_to_exam level) provider 4 0

/-! ## Concrete fixtures used by the closed theorems -/

/-- Shape check `Except.isOk` as a plain helper (shape checks in closed statements). -/
def isOkB {ε α : Type} (r : Except ε α) : Bool :=
  match r with
  | .ok _ => true
  | .error _ => false

/-- A well-formed clip with id `c<i>`, correct choice 0. -/
def sampleClip (i : Nat) : Clip :=
  { id := "c" ++ toString i
    title := "Title"
    transcript := "Some transcript."
    question := "What was said?"
    choices := ["optA", "optB", "optC", "optD"]
    correct_index := 0
    rationale := "Because."
    level_cefr := "A2"
    cambridge_level := "KET"
    exam_task_type := "gist"
    target_vocab := ["w1"]
    target_structures := ["s1"] }

/-- A correct answer for clip `c<i>`. -/
def ansFor (i : Nat) : AnswerIn := { clip_id := "c" ++ toString i, choice_index := 0 }

/-- A freshly started listening session holding clips `c1`, `c2`. -/
def listenSt0 : ListenSession := start_session_state "sess" "user" none [sampleClip 1, sampleClip 2]

/-- After submitting both answers of the first batch (asked = 2). -/
def listenSt1 : ListenSession :=
  (submit_answers listenSt0 [ansFor 1, ansFor 2] (.ok [sampleClip 3, sampleClip 4])).1

/-- After the second full batch (asked = 4). -/
def listenSt2 : ListenSession :=
  (submit_answers listenSt1 [ansFor 3, ansFor 4] (.ok [sampleClip 5, sampleClip 6])).1

/-- After the third full batch (asked = 6). -/
def listenSt3 : ListenSession :=
  (submit_answers listenSt2 [ansFor 5, ansFor 6] (.ok [sampleClip 7, sampleClip 8])).1

/-- After the fourth full batch (asked = 8). -/
def listenSt4 : ListenSession :=
  (submit_answers listenSt3 [ansFor 7, ansFor 8] (.ok [sampleClip 9, sampleClip 10])).1

/-- After answering only one clip of the fifth batch (asked = 9): the
active batch is replaced by the single remaining clip `c11`. -/
def listenSt5 : ListenSession :=
  (submit_answers listenSt4 [ansFor 9] (.ok [sampleClip 11])).1

/-- After submitting the final single-clip batch twice in one request:
both duplicate answers are counted. -/
def listenSt6 : ListenSession :=
  (submit_answers listenSt5 [ansFor 11, ansFor 11] (.ok [])).1

/-- A well-formed vocabulary question with answer index 0. -/
def vq1 : VQuestion :=
  { id := "q1"
    cefr := "A2"
    exam_target := "KET"
    passage := "A passage."
    question := "Pick one."
    options := ["a", "b", "c", "d"]
    answer_index := 0
    rationale := some "r" }

/-- A vocabulary session freshly started with question `q1`. -/
def vSt0 : VocabSession := vocab_start_state "vs" "A2" vq1

/-- The registry entry left behind by a vocabulary `answer` call. -/
def vocabSessionAfter (r : Except VocabError (Option VocabSession × VocabAnswerResp)) :
    Option VocabSession :=
  match r with
  | .ok (s, _) => s
  | .error _ => none

/-- The question ids recorded in the history after an `answer` call that
kept the session alive. -/
def historyIdsAfter (r : Except VocabError (Option VocabSession × VocabAnswerResp)) :
    Option (List String) :=
  match r with
  | .ok (some st, _) => some (st.history.map VHistEntry.question_id)
  | _ => none

/-- The response of a successful `answer` call. -/
def respAfter (r : Except VocabError (Option VocabSession × VocabAnswerResp)) :
    Option VocabAnswerResp :=
  match r with
  | .ok (_, resp) => some resp
  | .error _ => none

/-- First `answer` call against `q1`. -/
def vStep1 : Except VocabError (Option VocabSession × VocabAnswerResp) :=
  vocab_answer (some vSt0) "q1" 0

/-- Second `answer` call against the *same, already answered* `q1`. -/
def vStep2 : Except VocabError (Option VocabSession × VocabAnswerResp) :=
  vocab_answer (vocabSessionAfter vStep1) "q1" 0

/-- A raw provider response carrying a structurally valid batch of two
listening clips. -/
def goodClips2 : String := "\x7b\"clips\": [\x7b\"title\": \"T1\", \"transcript\": \"tr one\", \"question\": \"Q1?\", \"options\": [\"a\", \"b\", \"c\", \"d\"], \"correct_index\": 0, \"rationale\": \"R1\", \"exam_task_type\": \"gist\", \"targets\": \x7b\"target_vocab\": [\"v1\", \"v2\"], \"target_structures\": [\"s1\"]\x7d\x7d, \x7b\"title\": \"T2\", \"transcript\": \"tr two\", \"question\": \"Q2?\", \"options\": [\"e\", \"f\", \"g\", \"h\"], \"correct_index\": 1, \"rationale\": \"R2\", \"exam_task_type\": \"detail\", \"targets\": \x7b\"target_vocab\": [\"v2\", \"v3\"], \"target_structures\": [\"s2\"]\x7d\x7d]\x7d"

/-- Listening provider stream: malformed first response, valid batch on
every later (never issued) call. -/
def listenStreamBadThenGood : Nat → String :=
  fun k => if k = 0 then "not json" else goodClips2

/-- One structurally valid reading-question object. -/
def goodReadQObj : String := "\x7b\"question\": \"Q?\", \"options\": [\"a\", \"b\", \"c\", \"d\"], \"correct_index\": 0, \"rationale\": \"r\"\x7d"

/-- A raw provider response carrying a valid array of five reading
questions. -/
def goodReadQs5 : String :=
  "[" ++ goodReadQObj ++ ", " ++ goodReadQObj ++ ", " ++ goodReadQObj ++ ", " ++
    goodReadQObj ++ ", " ++ goodReadQObj ++ "]"

/-- Reading provider stream: malformed first response, valid
five-question array on every later (never issued) call. -/
def readStreamBadThenGood : Nat → String :=
  fun k => if k = 0 then "not json" else goodReadQs5

/-- A raw provider response carrying a structurally valid vocabulary
question (answer index 1). -/
def goodVQRaw : String := "\x7b\"passage\": \"A short passage.\", \"question\": \"Fill the gap.\", \"options\": [\"aa\", \"bb\", \"cc\", \"dd\"], \"answer_index\": 1, \"rationale\": \"why\"\x7d"

/-- A validator response accepting exactly option 1. -/
def goodValRaw : String := "\x7b\"correct_indices\": [1], \"notes\": \"ok\"\x7d"

/-- Vocabulary provider stream: three malformed responses, then a valid
question (call 3) and a confirming validation (call 4) — the fourth
attempt succeeds. -/
def vocabStreamFourth : Nat → String :=
  fun k => if k < 3 then "not json" else if k = 3 then goodVQRaw else goodValRaw

/-- Vocabulary provider stream: four malformed responses, then a valid
question (call 4) and a confirming validation (call 5) — one attempt past
the bound. -/
def vocabStreamFifth : Nat → String :=
  fun k => if k < 4 then "not json" else if k = 4 then goodVQRaw else goodValRaw

/-- Vocabulary provider stream: valid question on call 0, then a validator
response that is a JSON *array* at top level. -/
def vocabStreamArrayValidator : Nat → String :=
  fun k => if k = 0 then goodVQRaw else "[0]"

/-- Input whose fenced block parses while neither the whole text nor any
brace span does. -/
def fencedOnlyInput : String := "pre \x7b ```json\n\x7b\"b\": 2\x7d\n``` post"

/-- The nested-object example from the specification. -/
def nestedBraceInput : String := "noise \x7b\"a\": \x7b\"b\":2\x7d\x7d trailing"

/-- The fenced example from the specification. -/
def fencedSpecInput : String := "Here you go: ```json\n\x7b\"a\":1\x7d\n```"

/-! ## Invariant predicates -/

/-- A submit request whose answers target distinct clips of the given
active batch with in-range choices — the shape a well-behaved client
produces. -/
def answersValidFor (clips : List Clip) (answers : List AnswerIn) : Prop :=
  (answers.map AnswerIn.clip_id).Nodup ∧
  ∀ a ∈ answers, (∃ c ∈ clips, c.id = a.clip_id) ∧
    0 ≤ a.choice_index ∧ a.choice_index ≤ 3

/-- The between-requests counter invariant of a listening session: the
items-asked counter never exceeds the budget, the terminal flag holds
exactly at the budget, and while the session is live the active batch fits
into the remaining budget. -/
def ListenInv (st : ListenSession) : Prop :=
  st.asked ≤ st.total ∧
  (st.ended = true ↔ st.asked = st.total) ∧
  (st.ended = false → st.asked + st.clips.length ≤ st.total)

/-- The outcome of answering the active batch of `listenSt1` while the
next-batch generation call fails. -/
def c5After : ListenSession × Except SubmitError SubmitResponse :=
  submit_answers listenSt1 [ansFor 3, ansFor 4] (.error .invalidJson)


/-! # Theorems -/

/-! ## Helper lemmas on the listening answer loop -/

theorem listenProcessOne_fields {d : List Clip} {st : ListenSession} {a : AnswerIn}
    {st' : ListenSession} {ev : EvalEntry}
    (h : listenProcessOne d st a = .ok (st', ev)) :
    st'.asked = st.asked + 1 ∧ st'.total = st.total ∧ st'.ended = st.ended ∧
    st'.clips = st.clips ∧ st'.clip_lookup = st.clip_lookup ∧
    st'.session_id = st.session_id ∧
    (∃ b, st'.history = st.history ++ [b]) ∧
    (∃ e, st'.answer_log = st.answer_log ++ [e]) := by
  cases hf : d.find? (fun c => c.id = a.clip_id) with
  | none => simp only [listenProcessOne, hf] at h; exact Except.noConfusion h
  | some clip =>
    by_cases hc : a.choice_index < 0 ∨ 3 < a.choice_index
    · simp only [listenProcessOne, hf, if_pos hc] at h; exact Except.noConfusion h
    · simp only [listenProcessOne, hf, if_neg hc, Except.ok.injEq, Prod.mk.injEq] at h
      obtain ⟨h1, -⟩ := h
      subst h1
      exact ⟨rfl, rfl, rfl, rfl, rfl, rfl, ⟨_, rfl⟩, ⟨_, rfl⟩⟩

theorem listenProcessOne_isOk (d : List Clip) (st : ListenSession) (a : AnswerIn)
    (hf : (d.find? (fun c => c.id = a.clip_id)).isSome)
    (hc : ¬(a.choice_index < 0 ∨ 3 < a.choice_index)) :
    ∃ st' ev, listenProcessOne d st a = .ok (st', ev) := by
  obtain ⟨clip, hfe⟩ := Option.isSome_iff_exists.mp hf
  cases hres : listenProcessOne d st a with
  | error e =>
    exfalso
    simp only [listenProcessOne, hfe, if_neg hc] at hres
    exact Except.noConfusion hres
  | ok p =>
    obtain ⟨s1, e1⟩ := p
    exact ⟨s1, e1, rfl⟩

theorem listenProcessOne_level {d : List Clip} {st : ListenSession} {a : AnswerIn}
    {st' : ListenSession} {ev : EvalEntry}
    (h : listenProcessOne d st a = .ok (st', ev)) :
    st'.current_cefr =
      (if st'.asked % 2 = 0 then adjust_after_pair st.current_cefr (lastTwo st'.history)
       else st.current_cefr) := by
  cases hf : d.find? (fun c => c.id = a.clip_id) with
  | none => simp only [listenProcessOne, hf] at h; exact Except.noConfusion h
  | some clip =>
    by_cases hc : a.choice_index < 0 ∨ 3 < a.choice_index
    · simp only [listenProcessOne, hf, if_pos hc] at h; exact Except.noConfusion h
    · simp only [listenProcessOne, hf, if_neg hc, Except.ok.injEq, Prod.mk.injEq] at h
      obtain ⟨h1, -⟩ := h
      subst h1
      rfl

theorem listenLoop_ok (d : List Clip) (answers : List AnswerIn) :
    ∀ (st : ListenSession) (acc : List EvalEntry),
      (∀ a ∈ answers, (∃ c ∈ d, c.id = a.clip_id) ∧
        ¬(a.choice_index < 0 ∨ 3 < a.choice_index)) →
      (listenLoop d st answers acc).2.2 = none ∧
      (listenLoop d st answers acc).1.asked = st.asked + answers.length ∧
      (listenLoop d st answers acc).1.total = st.total ∧
      (listenLoop d st answers acc).1.ended = st.ended ∧
      (listenLoop d st answers acc).1.clips = st.clips ∧
      (listenLoop d st answers acc).1.clip_lookup = st.clip_lookup ∧
      (∃ t, (listenLoop d st answers acc).1.history = st.history ++ t ∧
        t.length = answers.length) := by
  induction answers with
  | nil =>
    intro st acc h
    simp [listenLoop]
  | cons a rest ih =>
    intro st acc h
    obtain ⟨⟨clip0, hclip0, hid⟩, hc⟩ := h a (List.mem_cons_self a rest)
    have hsome : (d.find? (fun c => c.id = a.clip_id)).isSome :=
      List.find?_isSome.mpr ⟨clip0, hclip0, by simp [hid]⟩
    obtain ⟨st', ev, hstep⟩ := listenProcessOne_isOk d st a hsome hc
    obtain ⟨ha, ht, he, hcl, hlk, hsid, ⟨b, hh⟩, -⟩ := listenProcessOne_fields hstep
    have ihh := ih st' (acc ++ [ev]) (fun x hx => h x (List.mem_cons_of_mem a hx))
    obtain ⟨i1, i2, i3, i4, i5, i6, ⟨t, i7, i8⟩⟩ := ihh
    have hred : listenLoop d st (a :: rest) acc = listenLoop d st' rest (acc ++ [ev]) := by
      simp only [listenLoop, hstep]
    rw [hred]
    refine ⟨i1, ?_, ?_, ?_, ?_, ?_, ?_⟩
    · rw [i2, ha]; simp; omega
    · rw [i3, ht]
    · rw [i4, he]
    · rw [i5, hcl]
    · rw [i6, hlk]
    · exact ⟨b :: t, by rw [i7, hh]; simp, by simp [i8]⟩

/-! ## Claim theorems -/

/-- C1 — counterexample.  The claim states that a 4-of-5 block raises the
level by exactly one whenever the pre-block level is below the maximum
level C2.  At pre-block level C1 — which is below C2 — the code
(`read.py` lines 338-342) leaves the level unchanged, because the
freeze is written against `"C1"`, not against the maximum level. -/
theorem claim_C1_counterexample :
    ("C1" ∈ CEFR_ORDER) ∧ "C1" ≠ "C2" ∧ read_block_adjust "C1" 4 = "C1" := by
  refine ⟨by decide, by decide, by decide⟩

/-- C1 — amended.  Reading passage-block rule, 4-of-5 case: the level
increases by exactly one CEFR step when the pre-block level is below C1,
and it is left unchanged when the pre-block level is C1 (explicit freeze
in the code) or C2 (the +1 is clamped at the top of the scale). -/
theorem claim_C1_amended :
    read_block_adjust "A1" 4 = "A2" ∧ read_block_adjust "A2" 4 = "B1" ∧
    read_block_adjust "B1" 4 = "B2" ∧ read_block_adjust "B2" 4 = "C1" ∧
    read_block_adjust "C1" 4 = "C1" ∧ read_block_adjust "C2" 4 = "C2" := by
  decide

/-- C10 — confirmed.  Every listening session starts at CEFR level A2
regardless of client input: `_validate_cefr` ignores its argument and
returns `"A2"`, and the session built by `start_session` installs that
value as both the start level and the initial current level. -/
theorem claim_C10_start_level :
    ∀ (sid uname : String) (lvl : Option String) (clips : List Clip),
      validate_cefr lvl = "A2" ∧
      (start_session_state sid uname lvl clips).start_cefr = "A2" ∧
      (start_session_state sid uname lvl clips).current_cefr = "A2" ∧
      (start_session_state sid uname lvl clips).total = 10 ∧
      (start_session_state sid uname lvl clips).asked = 0 ∧
      (start_session_state sid uname lvl clips).ended = false := by
  intro sid uname lvl clips
  exact ⟨rfl, rfl, rfl, rfl, rfl, rfl⟩

/-- Streak adjustment never touches the counters: `_adjust_level`
(vocabulary.py) changes only the level index and the streaks. -/
theorem adjust_level_counters (st : VocabSession) (b : Bool) :
    (adjust_level st b).asked = st.asked ∧ (adjust_level st b).total = st.total := by
  unfold adjust_level
  cases b <;> simp <;> split <;> simp <;> split <;> simp

/-- C3 — confirmed.  Listening pairwise rule: along the per-answer loop
the level is recomputed only when the updated counter is even, from the
latest two outcomes (`submit_answers` lines 500-502); and on the six
levels the pair rule is exactly: both correct ⇒ one step up, both
incorrect ⇒ one step down, split pair ⇒ unchanged, except at the maximum
level C2 where any non-both-correct pair steps down and a both-correct
pair saturates at C2 (and at A1 a both-incorrect pair saturates at A1). -/
theorem claim_C3_pairwise :
    (∀ (d : List Clip) (st : ListenSession) (a : AnswerIn) (st' : ListenSession)
        (ev : EvalEntry),
       listenProcessOne d st a = .ok (st', ev) →
       st'.asked = st.asked + 1 ∧
       st'.current_cefr =
         (if st'.asked % 2 = 0 then adjust_after_pair st.current_cefr (lastTwo st'.history)
          else st.current_cefr)) ∧
    (∀ lvl ∈ CEFR_ORDER, ∀ p₀ p₁ : Bool,
       adjust_after_pair lvl [p₀, p₁] =
         if lvl = "C2" then (if p₀ && p₁ then "C2" else "C1")
         else if p₀ && p₁ then CEFR_ORDER.getD (CEFR_ORDER.indexOf lvl + 1) lvl
         else if (!p₀) && (!p₁) then
           (if lvl = "A1" then "A1" else CEFR_ORDER.getD (CEFR_ORDER.indexOf lvl - 1) lvl)
         else lvl) := by
  constructor
  · intro d st a st' ev h
    exact ⟨(listenProcessOne_fields h).1, listenProcessOne_level h⟩
  · decide

/-- C3 — witness: the boundary cases at C2, and a concrete first answer
(odd position) leaving the level untouched. -/
theorem claim_C3_pairwise_witness :
    adjust_after_pair "C2" [true, false] = "C1" ∧
    (∃ st' ev, listenProcessOne [sampleClip 1] listenSt0 (ansFor 1) = .ok (st', ev) ∧
       st'.asked = 1 ∧ st'.current_cefr = "A2") := by
  constructor
  · have h := claim_C3_pairwise.2 "C2" (by decide) true false
    simpa using h
  · refine ⟨_, _, rfl, ?_, ?_⟩
    · have h := claim_C3_pairwise.1 [sampleClip 1] listenSt0 (ansFor 1) _ _ rfl
      exact h.1.trans (by rfl)
    · have h := claim_C3_pairwise.1 [sampleClip 1] listenSt0 (ansFor 1) _ _ rfl
      exact h.2.trans (by rfl)

/-- C2 — counterexample.  A reachable listening session (`listenSt5`:
nine items asked of ten, one active clip, live) accepts a single submit
request that answers the same active clip twice; both duplicates are
counted, driving the items-asked counter to 11 > 10 with the finished
flag set — so neither `itemsAsked ≤ total` nor `itemsAsked = total ↔
finished` survives duplicate submissions. -/
theorem claim_C2_counterexample :
    ListenInv listenSt5 ∧ listenSt5.asked = 9 ∧ listenSt5.clips = [sampleClip 11] ∧
    isOkB (submit_answers listenSt5 [ansFor 11, ansFor 11] (.ok [])).2 = true ∧
    listenSt6.asked = 11 ∧ listenSt6.total = 10 ∧ listenSt6.ended = true := by
  refine ⟨⟨by decide, by decide, by decide⟩, by decide, by decide, by decide, by decide,
    by decide, by decide⟩

/-- C2 — amended.  The counter invariant holds for requests that answer
each active clip at most once: a fresh listening session satisfies it, a
submit whose answers target distinct in-range clips of the active batch
(with the next batch sized `min 2 remaining`, as `_llm_generate_clips`
guarantees) preserves it, and a vocabulary `answer` turn keeps
`asked ≤ total` with the reported finished flag true exactly when the
pre-answer counter had already reached the budget.  Duplicate clip ids
inside one listening request (see the counterexample) fall outside every
hypothesis and can overshoot the budget. -/
theorem claim_C2_amended :
    (∀ (sid uname : String) (lvl : Option String) (clips : List Clip),
       clips.length ≤ 10 → ListenInv (start_session_state sid uname lvl clips)) ∧
    (∀ (st : ListenSession) (answers : List AnswerIn) (new_clips : List Clip),
       ListenInv st → answersValidFor st.clips answers →
       new_clips.length = min 2 (st.total - (st.asked + answers.length)) →
       ListenInv (submit_answers st answers (.ok new_clips)).1) ∧
    (∀ (st : VocabSession) (qid : String) (ci : Int),
       st.asked ≤ st.total →
       ∀ stOut resp, vocab_answer (some st) qid ci = .ok (stOut, resp) →
         resp.progress_current ≤ resp.progress_total ∧
         (resp.finished = true ↔ st.total ≤ st.asked) ∧
         (∀ st2, stOut = some st2 → st2.asked ≤ st2.total ∧ st2.total = st.total)) := by
  refine ⟨?_, ?_, ?_⟩
  · intro sid uname lvl clips h
    refine ⟨by simp [start_session_state, ListenSession.init], ?_, ?_⟩
    · simp [start_session_state, ListenSession.init]
    · intro _
      simpa [start_session_state, ListenSession.init] using h
  · intro st answers new_clips hInv hValid hGen
    by_cases hend : st.ended = true
    · have : (submit_answers st answers (.ok new_clips)).1 = st := by
        simp [submit_answers, hend]
      rw [this]; exact hInv
    · have hendf : st.ended = false := by
        cases h : st.ended
        · rfl
        · exact absurd h hend
      have hAns : ∀ a ∈ answers, (∃ c ∈ st.clips, c.id = a.clip_id) ∧
          ¬(a.choice_index < 0 ∨ 3 < a.choice_index) := by
        intro a ha
        obtain ⟨hmem, h0, h3⟩ := hValid.2 a ha
        exact ⟨hmem, by omega⟩
      have hlen : answers.length ≤ st.clips.length := by
        have hsub : (answers.map AnswerIn.clip_id) ⊆ (st.clips.map Clip.id) := by
          intro x hx
          obtain ⟨a, ha, rfl⟩ := List.mem_map.mp hx
          obtain ⟨⟨c, hc, hcid⟩, _⟩ := hAns a ha
          exact List.mem_map.mpr ⟨c, hc, hcid⟩
        calc answers.length = (answers.map AnswerIn.clip_id).length := by simp
          _ ≤ (st.clips.map Clip.id).length := (hValid.1.subperm hsub).length_le
          _ = st.clips.length := by simp
      obtain ⟨l1, l2, l3, l4, l5, l6, ⟨t, l7, l8⟩⟩ := listenLoop_ok st.clips answers st [] hAns
      rcases hres : listenLoop st.clips st answers [] with ⟨st', evl, err⟩
      rw [hres] at l1 l2 l3 l4 l5 l6
      simp only at l1 l2 l3 l4 l5 l6
      subst l1
      have hle : st'.asked ≤ st.total := by
        have h3 := hInv.2.2 hendf
        omega
      by_cases hlt : st'.asked < st'.total
      · have hred : (submit_answers st answers (.ok new_clips)).1 =
            { st' with clips := new_clips,
                       clip_lookup := new_clips.foldl dictInsertClip st'.clip_lookup } := by
          simp [submit_answers, hend, hres, hlt]
        rw [hred]
        refine ⟨?_, ?_, ?_⟩
        · simp; omega
        · simp [l4, hendf]
          omega
        · intro _
          simp
          omega
      · have hred : (submit_answers st answers (.ok new_clips)).1 =
            { st' with ended := true } := by
          simp [submit_answers, hend, hres, hlt]
        rw [hred]
        have heq : st'.asked = st'.total := by omega
        refine ⟨by simp [heq], by simp [heq], ?_⟩
        · intro h
          simp at h
  · intro st qid ci hInv stOut resp h
    cases hf : st.questions.find? (fun p => p.1 = qid) with
    | none => simp only [vocab_answer, hf] at h; exact Except.noConfusion h
    | some p =>
      obtain ⟨pid, q⟩ := p
      simp only [vocab_answer, hf, Except.ok.injEq, Prod.mk.injEq] at h
      obtain ⟨h1, h2⟩ := h
      set st1 : VocabSession := { st with
        history := st.history ++
          [{ question_id := q.id, choice_index := ci, answer_index := q.answer_index,
             correct := ci == q.answer_index, level := q.cefr }] } with hst1
      subst h1
      subst h2
      have ha := (adjust_level_counters st1 (ci == q.answer_index)).1
      have ht := (adjust_level_counters st1 (ci == q.answer_index)).2
      have hsta : st1.asked = st.asked := rfl
      have hstt : st1.total = st.total := rfl
      by_cases hq : st.total ≤ st.asked
      · refine ⟨?_, ?_, ?_⟩
        · simp [ha, ht, hsta, hstt, hq]
          omega
        · simp [ha, ht, hsta, hstt, hq]
        · intro st2 hst2
          simp [ha, ht, hsta, hstt, hq] at hst2
      · refine ⟨?_, ?_, ?_⟩
        · simp [ha, ht, hsta, hstt, hq]
          omega
        · simp [ha, ht, hsta, hstt, hq]
        · intro st2 hst2
          simp [ha, ht, hsta, hstt, hq] at hst2
          rw [← hst2]
          simp [ha, ht, hsta, hstt]
          omega

/-- C2 — witness: the invariant holds for a fresh session, is preserved
by a well-formed full-batch submit, and a concrete vocabulary answer turn
keeps its counter within the budget. -/
theorem claim_C2_amended_witness :
    ListenInv (start_session_state "s" "u" none []) ∧
    ListenInv (submit_answers listenSt0 [ansFor 1, ansFor 2]
      (.ok [sampleClip 3, sampleClip 4])).1 ∧
    (∃ stOut resp, vocab_answer (some vSt0) "q1" 0 = .ok (stOut, resp) ∧
       resp.progress_current ≤ resp.progress_total) := by
  refine ⟨claim_C2_amended.1 "s" "u" none [] (by decide),
          claim_C2_amended.2.1 listenSt0 [ansFor 1, ansFor 2] [sampleClip 3, sampleClip 4]
            ⟨by decide, by decide, by decide⟩ ⟨by decide, by decide⟩ (by decide),
          ⟨_, _, rfl, (claim_C2_amended.2.2 vSt0 "q1" 0 (by decide) _ _ rfl).1⟩⟩

/-- C5 — counterexample.  Before the failing request the session
(`listenSt1`) satisfies the active-batch invariant (no answered item is
still active); after its two answers are processed and the next-batch
generation fails, the error is surfaced, but the session is *not* in its
prior valid state: the counter advanced from 2 to 4 and the
already-answered batch is still installed as the active batch. -/
theorem claim_C5_counterexample :
    listenSt1.asked = 2 ∧
    (listenSt1.clips.all (fun c => listenSt1.answer_log.all (fun e => e.clip_id ≠ c.id)))
      = true ∧
    c5After.2 = .error .generationFailed ∧
    c5After.1.asked = 4 ∧
    c5After.1.clips = listenSt1.clips ∧
    (c5After.1.clips.all (fun c => c5After.1.answer_log.all (fun e => e.clip_id ≠ c.id)))
      = false := by
  refine ⟨by decide, by decide, by rfl, by decide, by decide, by decide⟩

/-- C5 — amended.  When the in-turn generation call fails, the error is
surfaced to the caller and is fatal only to the request (the session stays
live, its budget intact), but the session keeps every mutation made before
the failure: the counter has advanced by the number of submitted answers,
the history carries their outcomes, and the just-answered batch remains
the active batch (no rollback to the prior state). -/
theorem claim_C5_amended :
    ∀ (st : ListenSession) (answers : List AnswerIn) (e : GenError),
      st.ended = false →
      (∀ a ∈ answers, (∃ c ∈ st.clips, c.id = a.clip_id) ∧
        ¬(a.choice_index < 0 ∨ 3 < a.choice_index)) →
      st.asked + answers.length < st.total →
      (submit_answers st answers (.error e)).2 = .error .generationFailed ∧
      (submit_answers st answers (.error e)).1.asked = st.asked + answers.length ∧
      (submit_answers st answers (.error e)).1.clips = st.clips ∧
      (submit_answers st answers (.error e)).1.ended = false ∧
      (submit_answers st answers (.error e)).1.total = st.total ∧
      (∃ t, (submit_answers st answers (.error e)).1.history = st.history ++ t ∧
        t.length = answers.length) := by
  intro st answers e hend hAns hroom
  obtain ⟨l1, l2, l3, l4, l5, l6, ⟨t, l7, l8⟩⟩ := listenLoop_ok st.clips answers st [] hAns
  rcases hres : listenLoop st.clips st answers [] with ⟨st', evl, err⟩
  rw [hres] at l1 l2 l3 l4 l5 l6 l7
  simp only at l1 l2 l3 l4 l5 l6 l7
  subst l1
  have hlt : st'.asked < st'.total := by omega
  have hne : ¬ st.ended = true := by simp [hend]
  have hred : submit_answers st answers (.error e) = (st', .error .generationFailed) := by
    simp [submit_answers, hne, hres, hlt]
  rw [hred]
  exact ⟨rfl, by simpa using l2, l5, by rw [l4, hend], l3, ⟨t, l7, l8⟩⟩

/-- C5 — witness: the amended statement at the concrete failing request of
the counterexample. -/
theorem claim_C5_amended_witness :
    c5After.2 = .error .generationFailed ∧ c5After.1.asked = 4 := by
  have h := claim_C5_amended listenSt1 [ansFor 3, ansFor 4] .invalidJson
    (by decide) (by decide) (by decide)
  exact ⟨h.1, h.2.1.trans (by decide)⟩

/-- C6 — counterexample.  In the vocabulary skill an already-answered
question id stays in the session's question lookup and a repeated
submission against it is *accepted*, not rejected: after answering `q1`,
a second `answer` call for the same `q1` succeeds and records a second
history entry for the same item. -/
theorem claim_C6_counterexample :
    historyIdsAfter vStep1 = some ["q1"] ∧
    ((vocabSessionAfter vStep1).map (fun st => st.questions.any (fun p => p.1 = "q1")) =
      some true) ∧
    historyIdsAfter vStep2 = some ["q1", "q1"] ∧
    (respAfter vStep2).map VocabAnswerResp.correct = some true := by
  refine ⟨rfl, rfl, rfl, rfl⟩

/-- C6 — amended.  What the session protocol does reject: unknown question
ids (vocabulary), missing/deleted sessions (vocabulary; a finished session
is deleted from the registry), submissions against a terminal listening
session, and listening answers whose clip id is not in the active batch.
Already-answered identifiers, however, remain accepted (see the
counterexample): the vocabulary lookup keeps every issued question, and a
listening request may repeat an active clip id within itself. -/
theorem claim_C6_amended :
    (∀ (st : VocabSession) (qid : String) (ci : Int),
       st.questions.find? (fun p => p.1 = qid) = none →
       vocab_answer (some st) qid ci = .error .unknownQuestion) ∧
    (∀ (qid : String) (ci : Int),
       vocab_answer none qid ci = .error .sessionNotFound) ∧
    (∀ (st : ListenSession) (answers : List AnswerIn) (gen : Except GenError (List Clip)),
       st.ended = true → submit_answers st answers gen = (st, .error .sessionEnded)) ∧
    (∀ (st : ListenSession) (a : AnswerIn) (rest : List AnswerIn)
        (gen : Except GenError (List Clip)),
       st.ended = false →
       st.clips.find? (fun c => c.id = a.clip_id) = none →
       submit_answers st (a :: rest) gen = (st, .error (.unknownClip a.clip_id))) := by
  refine ⟨?_, ?_, ?_, ?_⟩
  · intro st qid ci h
    simp [vocab_answer, h]
  · intro qid ci
    rfl
  · intro st answers gen h
    simp [submit_answers, h]
  · intro st a rest gen hend hfind
    simp [submit_answers, hend, listenLoop, listenProcessOne, hfind]

/-- C6 — witness: each rejection case at a concrete input. -/
theorem claim_C6_amended_witness :
    vocab_answer none "q9" 0 = .error .sessionNotFound ∧
    vocab_answer (some vSt0) "q9" 0 = .error .unknownQuestion ∧
    submit_answers listenSt6 [] (.ok []) = (listenSt6, .error .sessionEnded) ∧
    submit_answers listenSt0 [{ clip_id := "zz", choice_index := 0 }] (.ok []) =
      (listenSt0, .error (.unknownClip "zz")) := by
  refine ⟨claim_C6_amended.2.1 "q9" 0,
          claim_C6_amended.1 vSt0 "q9" 0 (by rfl),
          claim_C6_amended.2.2.1 listenSt6 [] (.ok []) (by decide),
          claim_C6_amended.2.2.2 listenSt0 { clip_id := "zz", choice_index := 0 } [] (.ok [])
            (by decide) (by rfl)⟩

set_option maxRecDepth 40000 in
/-- C4 — counterexample.  The claim says parse/validation failures are
retried with a fresh generation call up to a bound of 2 for non-vocabulary
skills.  Both the listening and the reading generators make exactly one
provider call: with a malformed first response each fails immediately even
though the very next response would have produced a structurally valid
batch. -/
theorem claim_C4_counterexample :
    llm_generate_clips "A2" "KET" 2 listenStreamBadThenGood = .error .invalidJson ∧
    isOkB (parseValidateClips "A2" "KET" 2 (listenStreamBadThenGood 1)) = true ∧
    llm_generate_passage_questions "B1" "PET" 5 1 readStreamBadThenGood =
      .error .invalidJson ∧
    isOkB (parseValidatePassageQuestions "B1" "PET" 5 1 (readStreamBadThenGood 1)) = true := by
  refine ⟨by rfl, by rfl, by rfl, by rfl⟩

set_option maxRecDepth 40000 in
/-- C4 — amended.  Only the vocabulary skill retries: its loop makes up to
four generation attempts (a run with three malformed responses still
succeeds on the fourth; a run with four malformed responses fails with
the exhaustion error even though a fifth attempt would have succeeded),
while the listening and reading generators each perform exactly one
generation call — their results depend only on the first provider
response, so a parse or validation failure is surfaced with no retry. -/
theorem claim_C4_amended :
    (∀ (cefr camb : String) (count : Nat) (p q : Nat → String),
       p 0 = q 0 →
       llm_generate_clips cefr camb count p = llm_generate_clips cefr camb count q) ∧
    (∀ (cefr camb : String) (qpp nn : Nat) (p q : Nat → String),
       p 0 = q 0 →
       llm_generate_passage_questions cefr camb qpp nn p =
         llm_generate_passage_questions cefr camb qpp nn q) ∧
    llm_generate_passage_questions "B1" "PET" 5 1 readStreamBadThenGood =
      .error .invalidJson ∧
    isOkB (parseValidatePassageQuestions "B1" "PET" 5 1 (readStreamBadThenGood 1)) = true ∧
    isOkB (generate_question_for 1 vocabStreamFourth) = true ∧
    generate_question_for 1 vocabStreamFifth = .error .exhausted ∧
    isOkB (generate_question_aux "A2" "KET" vocabStreamFifth 1 4) = true := by
  refine ⟨?_, ?_, by rfl, by rfl, by rfl, by rfl, by rfl⟩
  · intro cefr camb count p q h
    unfold llm_generate_clips
    rw [h]
  · intro cefr camb qpp nn p q h
    unfold llm_generate_passage_questions
    rw [h]

/-- C4 — witness: two providers agreeing on response 0 yield the same
listening generation result, and likewise for the reading generator. -/
theorem claim_C4_amended_witness :
    llm_generate_clips "A2" "KET" 2 listenStreamBadThenGood =
      llm_generate_clips "A2" "KET" 2 (fun _ => "not json") ∧
    llm_generate_passage_questions "B1" "PET" 5 1 readStreamBadThenGood =
      llm_generate_passage_questions "B1" "PET" 5 1 (fun _ => "not json") :=
  ⟨claim_C4_amended.1 "A2" "KET" 2 listenStreamBadThenGood (fun _ => "not json") rfl,
   claim_C4_amended.2.1 "B1" "PET" 5 1 readStreamBadThenGood (fun _ => "not json") rfl⟩

/-- C7 — counterexample.  The claim asserts all JSON extraction tries
three strategies.  On an input whose fenced block parses while neither the
whole text nor the brace span does, the vocabulary extractor
`_extract_json_block` — which has no fenced-block strategy — fails, while
the listening/reading extractor succeeds. -/
theorem claim_C7_counterexample :
    jsonLoads fencedOnlyInput = none ∧
    (fenceCandidate fencedOnlyInput).bind jsonLoads = some (Json.obj [("b", Json.num 2)]) ∧
    extract_json_object fencedOnlyInput = .ok (Json.obj [("b", Json.num 2)]) ∧
    extract_json_block fencedOnlyInput = .error "Failed to parse JSON from Gemini output" := by
  refine ⟨rfl, rfl, rfl, rfl⟩

/-- C7 — amended.  The listening/reading extractor `_extract_json_object`
tries, in order: the whole string, the fenced block, the first-to-last
brace span, returning the first parse success and erroring when all fail;
the vocabulary extractor `_extract_json_block` tries only the whole string
and the brace span.  The specification's two round-trip examples hold,
the nested-brace one for both extractors. -/
theorem claim_C7_amended :
    (∀ (t : String) (j : Json), jsonLoads t = some j → extract_json_object t = .ok j) ∧
    (∀ (t c : String) (j : Json), jsonLoads t = none → fenceCandidate t = some c →
       jsonLoads c = some j → extract_json_object t = .ok j) ∧
    (∀ (t c : String) (j : Json), jsonLoads t = none →
       (fenceCandidate t).bind jsonLoads = none →
       braceCandidate t = some c → jsonLoads c = some j → extract_json_object t = .ok j) ∧
    (∀ t : String, jsonLoads t = none → (fenceCandidate t).bind jsonLoads = none →
       (braceCandidate t).bind jsonLoads = none →
       extract_json_object t = .error "LLM did not return valid JSON.") ∧
    (∀ (t : String) (j : Json), jsonLoads t = some j → extract_json_block t = .ok j) ∧
    (∀ (t c : String) (j : Json), jsonLoads t = none → vocabBraceCandidate t = some c →
       jsonLoads c = some j → extract_json_block t = .ok j) ∧
    (∀ t : String, jsonLoads t = none → (vocabBraceCandidate t).bind jsonLoads = none →
       extract_json_block t = .error "Failed to parse JSON from Gemini output") ∧
    extract_json_object nestedBraceInput =
      .ok (Json.obj [("a", Json.obj [("b", Json.num 2)])]) ∧
    extract_json_block nestedBraceInput =
      .ok (Json.obj [("a", Json.obj [("b", Json.num 2)])]) ∧
    extract_json_object fencedSpecInput = .ok (Json.obj [("a", Json.num 1)]) := by
  refine ⟨?_, ?_, ?_, ?_, ?_, ?_, ?_, rfl, rfl, rfl⟩
  · intro t j h
    simp [extract_json_object, h]
  · intro t c j h1 h2 h3
    simp [extract_json_object, h1, h2, h3]
  · intro t c j h1 h2 h3 h4
    cases hfc : fenceCandidate t with
    | none => simp [extract_json_object, h1, hfc, h3, h4]
    | some c' =>
      rw [hfc] at h2
      simp only [Option.some_bind] at h2
      simp [extract_json_object, h1, hfc, h2, h3, h4]
  · intro t h1 h2 h3
    cases hfc : fenceCandidate t with
    | none =>
      cases hbc : braceCandidate t with
      | none => simp [extract_json_object, h1, hfc, hbc]
      | some c' =>
        rw [hbc] at h3
        simp only [Option.some_bind] at h3
        simp [extract_json_object, h1, hfc, hbc, h3]
    | some c' =>
      rw [hfc] at h2
      simp only [Option.some_bind] at h2
      cases hbc : braceCandidate t with
      | none => simp [extract_json_object, h1, hfc, h2, hbc]
      | some c'' =>
        rw [hbc] at h3
        simp only [Option.some_bind] at h3
        simp [extract_json_object, h1, hfc, h2, hbc, h3]
  · intro t j h
    simp [extract_json_block, h]
  · intro t c j h1 h2 h3
    simp [extract_json_block, h1, h2, h3]
  · intro t h1 h2
    cases hbc : vocabBraceCandidate t with
    | none => simp [extract_json_block, h1, hbc]
    | some c' =>
      rw [hbc] at h2
      simp only [Option.some_bind] at h2
      simp [extract_json_block, h1, hbc, h2]

/-- C7 — witness: the first strategy at a directly-parseable input. -/
theorem claim_C7_amended_witness :
    extract_json_object "\x7b\x7d" = .ok (Json.obj []) :=
  claim_C7_amended.1 "\x7b\x7d" (Json.obj []) rfl

set_option maxRecDepth 40000 in
/-- C8 — counterexample.  A validator response that parses to a top-level
JSON *array* is not discarded as invalid: the `.get` on the parsed value
raises an `AttributeError` outside the guarding `try`, which escapes the
retry loop and aborts the whole generation request instead of rejecting
the item and retrying. -/
theorem claim_C8_counterexample :
    validate_unique_answer vq1 "[0]" = .error .attributeError ∧
    generate_question_for 1 vocabStreamArrayValidator = .error (.pyFatal .attributeError) := by
  refine ⟨rfl, by rfl⟩

/-- C8 — amended.  An item passes the uniqueness validation only when the
validator output parses to an object whose `correct_indices`, after
normalization (ints and digit strings, in range, de-duplicated, sorted),
is exactly the singleton of the item's original answer index; zero
indices, several distinct in-range indices, a single differing index, and
unparseable output all yield `false`, upon which the generation loop
discards the item and retries — but an output parsing to a non-object
(previous theorem) crashes the request instead of being discarded. -/
theorem claim_C8_amended :
    (∀ (q : VQuestion) (raw : String),
       validate_unique_answer q raw = .ok true →
       ∃ data indices, extract_json_block raw = .ok data ∧
         pyDictGet data "correct_indices" = .ok (some (.arr indices)) ∧
         normalizeIndices indices q.options.length = [q.answer_index]) ∧
    (∀ (level exam : String) (provider : Nat → String) (tries k : Nat) (q : VQuestion),
       vocabParseQuestion level exam ("q" ++ toString k) (provider k) = .ok (some q) →
       validate_unique_answer q (provider (k + 1)) = .ok false →
       generate_question_aux level exam provider (tries + 1) k =
         generate_question_aux level exam provider tries (k + 2)) ∧
    validate_unique_answer vq1 "\x7b\"correct_indices\": []\x7d" = .ok false ∧
    validate_unique_answer vq1 "\x7b\"correct_indices\": [0, 1]\x7d" = .ok false ∧
    validate_unique_answer vq1 "\x7b\"correct_indices\": [1]\x7d" = .ok false ∧
    validate_unique_answer vq1 "total garbage" = .ok false ∧
    validate_unique_answer vq1 "\x7b\"correct_indices\": [0]\x7d" = .ok true ∧
    validate_unique_answer vq1 "\x7b\"correct_indices\": [0, \"0\", 7]\x7d" = .ok true := by
  refine ⟨?_, ?_, rfl, rfl, rfl, rfl, rfl, rfl⟩
  · intro q raw h
    cases he : extract_json_block raw with
    | error s => simp [validate_unique_answer, he] at h
    | ok data =>
      simp only [validate_unique_answer, he] at h
      cases hg : pyDictGet data "correct_indices" with
      | error e => simp only [hg] at h; exact Except.noConfusion h
      | ok indicesOpt =>
        simp only [hg] at h
        cases indicesOpt with
        | none => simp at h
        | some jv =>
          cases jv with
          | arr indices =>
            rcases hn : normalizeIndices indices q.options.length with - | ⟨v, - | ⟨w, rest⟩⟩
            · simp [hn] at h
            · simp only [hn, Except.ok.injEq] at h
              have hv : v = q.answer_index := by simpa using h
              exact ⟨data, indices, rfl, hg, by rw [hn, hv]⟩
            · simp [hn] at h
          | null => simp at h
          | bool b => simp at h
          | num n => simp at h
          | str s => simp at h
          | obj kvs => simp at h
  · intro level exam provider tries k q hparse hval
    simp only [generate_question_aux, hparse, hval]

/-- C8 — witness: the acceptance characterization at a concretely accepted
validation exchange. -/
theorem claim_C8_amended_witness :
    ∃ data indices,
      extract_json_block "\x7b\"correct_indices\": [0]\x7d" = .ok data ∧
      pyDictGet data "correct_indices" = .ok (some (.arr indices)) ∧
      normalizeIndices indices vq1.options.length = [vq1.answer_index] :=
  claim_C8_amended.1 vq1 "\x7b\"correct_indices\": [0]\x7d" rfl

/-- The guarded `agg.append(v)`: the already-present case. -/
theorem dedupAppend_mem_eq {acc : List String} {x : String} (h : x ∈ acc) :
    dedupAppend acc x = acc := by simp [dedupAppend, h]

/-- The guarded `agg.append(v)`: the first-seen case. -/
theorem dedupAppend_not_mem_eq {acc : List String} {x : String} (h : x ∉ acc) :
    dedupAppend acc x = acc ++ [x] := by simp [dedupAppend, h]

/-- The dedup-append fold keeps its accumulator duplicate-free. -/
theorem foldl_dedupAppend_nodup :
    ∀ (l acc : List String), acc.Nodup → (l.foldl dedupAppend acc).Nodup := by
  intro l
  induction l with
  | nil => intro acc h; simpa using h
  | cons x xs ih =>
    intro acc h
    simp only [List.foldl_cons]
    by_cases hx : x ∈ acc
    · rw [dedupAppend_mem_eq hx]; exact ih acc h
    · rw [dedupAppend_not_mem_eq hx]
      exact ih _ (by simp [List.nodup_append, h, hx])

/-- The dedup-append fold only appends, in first-seen stream order: the
new part is a sublist (order-preserving selection) of the stream. -/
theorem foldl_dedupAppend_sublist :
    ∀ (l acc : List String), ∃ t, l.foldl dedupAppend acc = acc ++ t ∧ List.Sublist t l := by
  intro l
  induction l with
  | nil => intro acc; exact ⟨[], by simp, by simp⟩
  | cons x xs ih =>
    intro acc
    simp only [List.foldl_cons]
    by_cases hx : x ∈ acc
    · rw [dedupAppend_mem_eq hx]
      obtain ⟨t, h1, h2⟩ := ih acc
      exact ⟨t, h1, h2.cons x⟩
    · rw [dedupAppend_not_mem_eq hx]
      obtain ⟨t, h1, h2⟩ := ih (acc ++ [x])
      exact ⟨x :: t, by rw [h1]; simp, h2.cons₂ x⟩

/-- The dedup-append fold loses no element: membership is preserved. -/
theorem mem_foldl_dedupAppend :
    ∀ (l acc : List String) (x : String),
      x ∈ l.foldl dedupAppend acc ↔ x ∈ acc ∨ x ∈ l := by
  intro l
  induction l with
  | nil => intro acc x; simp
  | cons y ys ih =>
    intro acc x
    simp only [List.foldl_cons]
    by_cases hy : y ∈ acc
    · rw [dedupAppend_mem_eq hy, ih]
      simp only [List.mem_cons]
      constructor
      · rintro (h | h)
        · exact Or.inl h
        · exact Or.inr (Or.inr h)
      · rintro (h | h | h)
        · exact Or.inl h
        · exact Or.inl (h ▸ hy)
        · exact Or.inr h
    · rw [dedupAppend_not_mem_eq hy, ih]
      simp only [List.mem_append, List.mem_singleton, List.mem_cons]
      tauto

/-- The per-clip double loop of the aggregation equals one dedup-append
fold over the concatenated target streams in clip order. -/
theorem aggTargets_eq :
    ∀ (clips : List Clip) (a1 a2 : List String),
      clips.foldl (fun acc c => (c.target_vocab.foldl dedupAppend acc.1,
        c.target_structures.foldl dedupAppend acc.2)) (a1, a2) =
      ((clips.map Clip.target_vocab).flatten.foldl dedupAppend a1,
       (clips.map Clip.target_structures).flatten.foldl dedupAppend a2) := by
  intro clips
  induction clips with
  | nil => intro a1 a2; simp
  | cons c rest ih =>
    intro a1 a2
    simp only [List.foldl_cons, List.map_cons, List.flatten_cons, List.foldl_append]
    exact ih _ _

/-- C9 — confirmed.  The listening final summary is a pure function of the
session's history, clip lookup, budget, level and log — recomputing it on
the session after the terminal flag is set (the only mutation `finalize`
performs) yields an identical summary, and it is deterministic in those
fields.  Its target lists deduplicate the vocabulary/structure targets of
every clip shown, preserving first-seen order (an order-preserving,
membership-complete, duplicate-free selection of the concatenated target
stream), truncated to at most 20 vocabulary entries and 12 structures. -/
theorem claim_C9_summary :
    (∀ (st : ListenSession) (ev : List EvalEntry),
       listenFinalSummary { st with ended := true } ev = listenFinalSummary st ev) ∧
    (∀ (st1 st2 : ListenSession) (ev : List EvalEntry),
       st1.history = st2.history → st1.clip_lookup = st2.clip_lookup →
       st1.total = st2.total → st1.current_cefr = st2.current_cefr →
       st1.answer_log = st2.answer_log →
       listenFinalSummary st1 ev = listenFinalSummary st2 ev) ∧
    (∀ clips : List Clip,
       (aggTargets clips).1.Nodup ∧ (aggTargets clips).2.Nodup ∧
       List.Sublist (aggTargets clips).1 (clips.map Clip.target_vocab).flatten ∧
       List.Sublist (aggTargets clips).2 (clips.map Clip.target_structures).flatten ∧
       (∀ x, x ∈ (aggTargets clips).1 ↔ x ∈ (clips.map Clip.target_vocab).flatten) ∧
       (∀ x, x ∈ (aggTargets clips).2 ↔ x ∈ (clips.map Clip.target_structures).flatten)) ∧
    (∀ (st : ListenSession) (ev : List EvalEntry)
        (c i tot : Nat) (lvl ex : String) (tv ts : List String)
        (log : List LogEntry) (evv : List EvalEntry),
       listenFinalSummary st ev = .finished c i tot lvl ex tv ts log evv →
       tv.length ≤ 20 ∧ ts.length ≤ 12 ∧ tv.Nodup ∧ ts.Nodup ∧
       List.Sublist tv (st.clip_lookup.map Clip.target_vocab).flatten ∧
       List.Sublist ts (st.clip_lookup.map Clip.target_structures).flatten) := by
  have hprops : ∀ clips : List Clip,
      (aggTargets clips).1.Nodup ∧ (aggTargets clips).2.Nodup ∧
      List.Sublist (aggTargets clips).1 (clips.map Clip.target_vocab).flatten ∧
      List.Sublist (aggTargets clips).2 (clips.map Clip.target_structures).flatten ∧
      (∀ x, x ∈ (aggTargets clips).1 ↔ x ∈ (clips.map Clip.target_vocab).flatten) ∧
      (∀ x, x ∈ (aggTargets clips).2 ↔ x ∈ (clips.map Clip.target_structures).flatten) := by
    intro clips
    have hagg : aggTargets clips =
        ((clips.map Clip.target_vocab).flatten.foldl dedupAppend [],
         (clips.map Clip.target_structures).flatten.foldl dedupAppend []) :=
      aggTargets_eq clips [] []
    rw [hagg]
    obtain ⟨t1, hs1, hsub1⟩ :=
      foldl_dedupAppend_sublist (clips.map Clip.target_vocab).flatten []
    obtain ⟨t2, hs2, hsub2⟩ :=
      foldl_dedupAppend_sublist (clips.map Clip.target_structures).flatten []
    refine ⟨foldl_dedupAppend_nodup _ [] (by simp),
            foldl_dedupAppend_nodup _ [] (by simp), ?_, ?_, ?_, ?_⟩
    · rw [hs1]; simpa using hsub1
    · rw [hs2]; simpa using hsub2
    · intro x
      rw [mem_foldl_dedupAppend]
      simp
    · intro x
      rw [mem_foldl_dedupAppend]
      simp
  refine ⟨?_, ?_, hprops, ?_⟩
  · intro st ev
    rfl
  · intro st1 st2 ev h1 h2 h3 h4 h5
    simp only [listenFinalSummary, h1, h2, h3, h4, h5]
  · intro st ev c i tot lvl ex tv ts log evv h
    simp only [listenFinalSummary, SubmitResponse.finished.injEq] at h
    obtain ⟨-, -, -, -, -, htv, hts, -, -⟩ := h
    have hp := hprops st.clip_lookup
    subst htv
    subst hts
    exact ⟨List.length_take_le 20 _, List.length_take_le 12 _,
           hp.1.sublist (List.take_sublist 20 _), hp.2.1.sublist (List.take_sublist 12 _),
           (List.take_sublist 20 _).trans hp.2.2.1,
           (List.take_sublist 12 _).trans hp.2.2.2.1⟩

/-- C9 — witness: a concrete session's summary has capped, deduplicated
target lists, and recomputation on unchanged state is identical. -/
theorem claim_C9_summary_witness :
    (∃ c i tot lvl ex tv ts log evv,
       listenFinalSummary listenSt1 [] = .finished c i tot lvl ex tv ts log evv ∧
       tv.length ≤ 20 ∧ ts.length ≤ 12) ∧
    listenFinalSummary listenSt1 [] = listenFinalSummary listenSt1 [] := by
  constructor
  · refine ⟨_, _, _, _, _, _, _, _, _, rfl, ?_, ?_⟩
    · exact (claim_C9_summary.2.2.2 listenSt1 [] _ _ _ _ _ _ _ _ _ rfl).1
    · exact (claim_C9_summary.2.2.2 listenSt1 [] _ _ _ _ _ _ _ _ _ rfl).2.1
  · exact claim_C9_summary.2.1 listenSt1 listenSt1 [] rfl rfl rfl rfl rfl
